import Mathlib

/-!
Shallow embedding of `yellowbrick/classifier.py` (module `yellowbrick.classifier`).

The module defines three visualizer classes, `ClassificationReport`, `ROCAUC`
and `ClassBalance`, all deriving from `ClassificationScoreVisualizer`.  External
dependencies (the scikit-learn estimator and metric functions, matplotlib, the
base classes in `yellowbrick.base`, the palettes) are modelled as parameters:
the metric functions are abstract function arguments, and every matplotlib call is
recorded as an element of an effect list `Eff`.

Python semantics modelled explicitly:
* an exception aborts the method but leaves the attribute assignments already
  performed in place, so every method returns the (possibly mutated) state
  together with `Except PyErr` of its result;
* a Python `dict` built with `dict(zip(ks, vs))` keeps the first occurrence of
  each key with its last value (`pyDict`);
* an attribute that has never been assigned is modelled as an `Option` field
  holding `none`; reading it raises `AttributeError`.
-/

namespace Yellowbrick

/-- The exception kinds that the code in `classifier.py` can raise:
`YellowbrickTypeError` from the constructor type-check, and the built-in Python
exceptions raised by operations on `None`, missing dict keys, list indexing,
`max`/`min` of an empty sequence, and unset attributes. -/
inductive PyErr where
  | yellowbrickTypeError
  | typeError
  | keyError
  | indexError
  | valueError
  | attributeError
deriving DecidableEq

/-! ### Python dictionaries

A Python `dict` is modelled as an association list without duplicate keys.
`dict(zip(ks, vs))` inserts the pairs of `zip(ks, vs)` left to right; inserting
an existing key overwrites its value in place, a new key is appended. -/

variable {K V : Type}

/-- One `d[k] = v` update of a Python dict: overwrite in place if `k` is
present, append otherwise. -/
def pyDictInsert [DecidableEq K] (d : List (K × V)) (k : K) (v : V) :
    List (K × V) :=
  if d.any (fun p => decide (p.1 = k)) then
    d.map (fun p => if p.1 = k then (k, v) else p)
  else
    d ++ [(k, v)]

/-- Python `dict(pairs)`: insert the pairs left to right into an empty dict. -/
def pyDict [DecidableEq K] (ps : List (K × V)) : List (K × V) :=
  ps.foldl (fun d p => pyDictInsert d p.1 p.2) []

/-- Python `dict(zip(ks, vs))`. -/
def dictZip [DecidableEq K] (ks : List K) (vs : List V) : List (K × V) :=
  pyDict (ks.zip vs)

/-- Python `d[k]` on a dict (keys are unique, so the first match is the binding);
`none` models a `KeyError`. -/
def dget [DecidableEq K] (d : List (K × V)) (k : K) : Option V :=
  (d.find? (fun p => decide (p.1 = k))).map Prod.snd

/-- Python `d.keys()` in insertion order. -/
def dkeys (d : List (K × V)) : List K := d.map Prod.fst

/-- Python `d.values()` in insertion order. -/
def dvalues (d : List (K × V)) : List V := d.map Prod.snd

/-! ### External scikit-learn metric results -/

/-- The 4-tuple of arrays returned by
`sklearn.metrics.precision_recall_fscore_support(y, y_pred)`: indices `0`, `1`,
`2` are the per-class precision, recall and f1 arrays, index `3` (= `-1`) is
the integer per-class support array. -/
structure PRFS (V : Type) where
  precisions : List V
  recalls : List V
  f1s : List V
  supports : List Nat
deriving DecidableEq

/-! ### Matplotlib effects

Every call into `matplotlib.pyplot` / the axes object is recorded as one
constructor, with the arguments the code computes. -/

/-- One matplotlib call made by the module, with its computed arguments.
`K` is the type of class labels, `V` the type of metric values. -/
inductive Eff (K V : Type) where
  /-- Python `plt.title(t)` -/
  | title (t : String)
  /-- Python `plt.colorbar()` -/
  | colorbar
  /-- Python `plt.xticks(marks, labels, rotation=45)` with string labels -/
  | xticksStr (marks : List Nat) (labels : List String)
  /-- Python `plt.xticks(marks, labels)` with class labels -/
  | xticksCls (marks : List Nat) (labels : List K)
  /-- Python `plt.yticks(marks, labels)` with class labels -/
  | yticksCls (marks : List Nat) (labels : List K)
  /-- Python `plt.xlabel(t)` -/
  | xlabel (t : String)
  /-- Python `plt.ylabel(t)` -/
  | ylabel (t : String)
  /-- Python `plt.legend(loc='lower right')` -/
  | legend
  /-- Python `plt.xlim([lo, hi])` -/
  | xlim (lo hi : ℚ)
  /-- Python `plt.ylim(lo, hi)` -/
  | ylim (lo hi : ℚ)
  /-- Python `plt.show()` -/
  | showPlot
  /-- Python `self.ax.text(x, y, v, va='center', ha='center')` -/
  | text (x y : Nat) (v : V)
  /-- Python `plt.imshow(m, interpolation='nearest', cmap=..., vmin=0, vmax=1)` -/
  | imshow (m : List (List V))
  /-- Python `plt.plot(fpr, tpr, c=color, label='AUC = ...')` with the AUC value -/
  | plotCurve (fpr tpr : List V) (aucValue : V) (color : String)
  /-- Python `plt.plot([0,1], [0,1], 'm--', c=color)` -/
  | plotDiag (color : String)
  /-- Python `plt.bar(marks, heights, color=colors, align='center', width=0.5)` -/
  | bar (marks : List Nat) (heights : List Nat) (colors : List String)
deriving DecidableEq

variable {M XT A C : Type}

/-! ### ClassificationScoreVisualizer -/

/-- The attributes set by `ScoreVisualizer.__init__` / `Visualizer.__init__`
(module `yellowbrick.base`, not in src): per the hoisted-attribute comments in
`classifier.py`, the estimator, `name = get_model_name(estimator)` and the
axes (`None` until drawn, unless passed in). -/
structure CSVState (M A : Type) where
  estimator : M
  name : String
  ax : Option A

/-- Python `ClassificationScoreVisualizer.__init__(model, ax=None, **kwargs)`:
raise `YellowbrickTypeError` if `not isclassifier(model)`, otherwise call the
base constructor.  Modelled from the spec: the base `__init__` (not in src)
performs no further validation — it only stores the attributes listed in the
hoisted-attribute comments. -/
def ClassificationScoreVisualizer.init (isclassifier : M → Bool)
    (get_model_name : M → String) (model : M) (ax : Option A) :
    Except PyErr (CSVState M A) :=
  if ¬ isclassifier model then
    .error .yellowbrickTypeError
  else
    .ok { estimator := model, name := get_model_name model, ax := ax }

/-! ### ClassificationReport -/

/-- Instance attributes of `ClassificationReport`.  `classes_` is `None` or a
list (set to the `classes` argument by `__init__`); `scores` and `matrix` are
unset (`none`) until `score` / `draw` assign them. -/
structure CRState (M K V A C : Type) where
  estimator : M
  name : String
  ax : Option A
  cmap : C
  classes_ : Option (List K)
  scores : Option (List (String × List (K × V)))
  matrix : Option (List (List V))

/-- Python `ClassificationReport.__init__(model, ax=None, classes=None, **kwargs)`:
delegate the type-check to the base constructor, then set
`self.cmap = kwargs.pop('cmap', ddlheatmap)` and `self.classes_ = classes`. -/
def ClassificationReport.init (isclassifier : M → Bool)
    (get_model_name : M → String) (ddlheatmap : C) (model : M) (ax : Option A)
    (classes : Option (List K)) (cmapKwarg : Option C) :
    Except PyErr (CRState M K V A C) := do
  let base ← ClassificationScoreVisualizer.init isclassifier get_model_name
    model ax
  .ok { estimator := base.estimator, name := base.name, ax := base.ax,
        cmap := cmapKwarg.getD ddlheatmap, classes_ := classes,
        scores := none, matrix := none }

/-- Python `ClassificationReport.fit(X, y, **kwargs)`: `super().fit` delegates to the
wrapped estimator (modelled from the spec: the base `fit`, not in src, only
fits the estimator), then `self.classes_ = self.estimator.classes_` if
`self.classes_ is None`, and `return self`. -/
def ClassificationReport.fit (fitEstimator : M → XT → List K → M)
    (estimatorClasses : M → List K) (s : CRState M K V A C) (X : XT)
    (y : List K) : CRState M K V A C :=
  let est := fitEstimator s.estimator X y
  let s := { s with estimator := est }
  match s.classes_ with
  | none => { s with classes_ := some (estimatorClasses est) }
  | some _ => s

/-- Python `self.scores['precision'][cls]`, `self.scores['recall'][cls]`,
`self.scores['f1'][cls]`: the row appended to `self.matrix` for one class;
a missing key raises `KeyError`. -/
def rowFor [DecidableEq K] (scores : List (String × List (K × V))) (cls : K) :
    Except PyErr (List V) :=
  match ((dget scores "precision").bind (fun d => dget d cls)),
        ((dget scores "recall").bind (fun d => dget d cls)),
        ((dget scores "f1").bind (fun d => dget d cls)) with
  | some p, some r, some f => .ok [p, r, f]
  | _, _, _ => .error .keyError

/-- The `for cls in self.classes_: self.matrix.append([...])` loop: returns the
rows appended before any failure, and the error if a lookup failed. -/
def buildRows [DecidableEq K] (scores : List (String × List (K × V))) :
    List K → List (List V) × Option PyErr
  | [] => ([], none)
  | c :: t =>
    match rowFor scores c with
    | .error e => ([], some e)
    | .ok row =>
      let (m, e?) := buildRows scores t
      (row :: m, e?)

/-- Python `self.matrix[row][column]`: `none` models an `IndexError`. -/
def cellAt (m : List (List V)) (row column : Nat) : Option V :=
  (m[row]?).bind (fun r => r[column]?)

/-- The iteration order of the annotation loop
`for column in range(len(matrix)+1): for row in range(nClasses): ...`,
as `(column, row)` pairs. -/
def annotatePairs (nMatrix nClasses : Nat) : List (Nat × Nat) :=
  (List.range (nMatrix + 1)).flatMap
    (fun column => (List.range nClasses).map (fun row => (column, row)))

/-- The body of the annotation loop: one `ax.text(column, row,
matrix[row][column], ...)` call per pair, stopping at the first out-of-bounds
access with an `IndexError`. -/
def annotateCells (m : List (List V)) :
    List (Nat × Nat) → List (Eff K V) × Option PyErr
  | [] => ([], none)
  | (column, row) :: t =>
    match cellAt m row column with
    | none => ([], some .indexError)
    | some v =>
      let (es, e?) := annotateCells m t
      (Eff.text column row v :: es, e?)

/-- The tail of `ClassificationReport.draw` once `self.matrix` has been
built: the annotation loop over `matrix[row][column]`, then
`plt.imshow(self.matrix, ...)` and `return self.ax` (already set to `a`). -/
def ClassificationReport.annotateLoop (a : A) (s : CRState M K V A C)
    (rows : List (List V)) :
    CRState M K V A C × List (Eff K V) × Except PyErr A :=
  match annotateCells rows
      (annotatePairs rows.length (s.classes_.getD []).length) with
  | (effs, some e) => (s, effs, .error e)
  | (effs, none) => (s, effs ++ [Eff.imshow rows], .ok a)

/-- Python `ClassificationReport.draw(y, y_pred)`: set `self.ax = plt.gca()` if it is
`None` (`gca` is the current axes), build `self.matrix` from `self.scores`
(iterating `self.classes_`; iterating `None` raises `TypeError`, an unset
`self.scores` raises `AttributeError` on the first iteration), run the
annotation loop, call `plt.imshow(self.matrix, ...)` and return `self.ax`. -/
def ClassificationReport.draw [DecidableEq K] (gca : A)
    (s : CRState M K V A C) (y y_pred : List K) :
    CRState M K V A C × List (Eff K V) × Except PyErr A :=
  let a := s.ax.getD gca
  let s := { s with ax := some a }
  match s.classes_ with
  | none => ({ s with matrix := some [] }, [], .error .typeError)
  | some cs =>
    match s.scores with
    | none =>
      if cs.isEmpty then
        -- the loop body never runs: matrix stays [], no attribute is read
        ClassificationReport.annotateLoop a { s with matrix := some [] } []
      else
        ({ s with matrix := some [] }, [], .error .attributeError)
    | some sc =>
      match buildRows sc cs with
      | (rows, some e) => ({ s with matrix := some rows }, [], .error e)
      | (rows, none) =>
        ClassificationReport.annotateLoop a { s with matrix := some rows } rows

/-- Python `ClassificationReport.score(X, y)`: `y_pred = self.predict(X)` (delegated
to the estimator), `self.scores = precision_recall_fscore_support(y, y_pred)`
then reshaped into `dict(zip(('precision','recall','f1'), map(lambda s:
dict(zip(self.classes_, s)), scores[0:3])))`, and `return self.draw(y,
y_pred)`.  When `self.classes_` is `None`, `zip(None, s)` raises `TypeError`
while the dict is built (the transient map-object value of `self.scores` is
not modelled). -/
def ClassificationReport.score [DecidableEq K] (predict : M → XT → List K)
    (prfs : List K → List K → PRFS V) (gca : A) (s : CRState M K V A C)
    (X : XT) (y : List K) :
    CRState M K V A C × List (Eff K V) × Except PyErr A :=
  let y_pred := predict s.estimator X
  match s.classes_ with
  | none => (s, [], .error .typeError)
  | some cs =>
    let raw := prfs y y_pred
    let scores := dictZip ["precision", "recall", "f1"]
      ([raw.precisions, raw.recalls, raw.f1s].map (fun arr => dictZip cs arr))
    let s := { s with scores := some scores }
    ClassificationReport.draw gca s y y_pred

/-- Python `ClassificationReport.finalize(**kwargs)`: title, colorbar, tick marks
from `len(self.classes_)` (`len(None)` raises `TypeError` after the first two
calls), axis labels, `return self.ax`. -/
def ClassificationReport.finalize (s : CRState M K V A C) :
    CRState M K V A C × List (Eff K V) × Except PyErr (Option A) :=
  let effs := [Eff.title (s.name ++ " Classification Report"), Eff.colorbar]
  match s.classes_ with
  | none => (s, effs, .error .typeError)
  | some cs =>
    (s, effs ++
      [Eff.xticksStr (List.range (cs.length + 1))
         ["precision", "recall", "f1-score"],
       Eff.yticksCls (List.range cs.length) cs,
       Eff.ylabel "Classes", Eff.xlabel "Measures"],
     .ok s.ax)

/-- Python `ClassificationReport.poof()`: `if self.ax is None: return`, else
`self.finalize()`, `plt.show()`, `return self.ax`. -/
def ClassificationReport.poof (s : CRState M K V A C) :
    CRState M K V A C × List (Eff K V) × Except PyErr (Option A) :=
  match s.ax with
  | none => (s, [], .ok none)
  | some _ =>
    let (s, effs, r) := ClassificationReport.finalize s
    match r with
    | .error e => (s, effs, .error e)
    | .ok _ => (s, effs ++ [Eff.showPlot], .ok s.ax)

/-! ### ROCAUC -/

/-- Instance attributes of `ROCAUC`.  The `self.colors` dict has the fixed
keys `'roc'` and `'diagonal'`, modelled as two fields; `fpr`, `tpr`,
`thresholds` and `roc_auc` are unset (`none`) until `score` assigns them. -/
structure RAState (M V A : Type) where
  estimator : M
  name : String
  ax : Option A
  roc_color : String
  diagonal_color : String
  fpr : Option (List V)
  tpr : Option (List V)
  thresholds : Option (List V)
  roc_auc : Option V

/-- Python `ROCAUC.__init__(model, ax=None, **kwargs)`: the base type-check, then
`self.colors = {'roc': kwargs.pop('roc_color', '#2B94E9'),
'diagonal': kwargs.pop('diagonal_color', '#666666')}`. -/
def ROCAUC.init (isclassifier : M → Bool) (get_model_name : M → String)
    (model : M) (ax : Option A) (rocColorKwarg diagonalColorKwarg :
    Option String) : Except PyErr (RAState M V A) := do
  let base ← ClassificationScoreVisualizer.init isclassifier get_model_name
    model ax
  .ok { estimator := base.estimator, name := base.name, ax := base.ax,
        roc_color := rocColorKwarg.getD "#2B94E9",
        diagonal_color := diagonalColorKwarg.getD "#666666",
        fpr := none, tpr := none, thresholds := none, roc_auc := none }

/-- Python `ROCAUC.draw(y, y_pred)`: set `self.ax = plt.gca()` if `None`, then
`plt.plot(self.fpr, self.tpr, c=self.colors['roc'], label='AUC =
{:0.2f}'.format(self.roc_auc))` and the diagonal, and `return self.ax`; an
unset attribute raises `AttributeError`. -/
def ROCAUC.draw {K : Type} (gca : A) (s : RAState M V A) (y y_pred : List K) :
    RAState M V A × List (Eff K V) × Except PyErr A :=
  let a := s.ax.getD gca
  let s := { s with ax := some a }
  match s.fpr, s.tpr, s.roc_auc with
  | some fpr, some tpr, some aucValue =>
    (s, [Eff.plotCurve fpr tpr aucValue s.roc_color,
         Eff.plotDiag s.diagonal_color], .ok a)
  | _, _, _ => (s, [], .error .attributeError)

/-- Python `ROCAUC.score(X, y)`: `y_pred = self.predict(X)`, `self.fpr, self.tpr,
self.thresholds = roc_curve(y, y_pred)`, `self.roc_auc = auc(self.fpr,
self.tpr)`, `return self.draw(y, y_pred)`.  `roc_curve` and `auc` are the
delegated scikit-learn functions, passed as parameters. -/
def ROCAUC.score {K : Type} (predict : M → XT → List K)
    (roc_curve : List K → List K → List V × List V × List V)
    (auc : List V → List V → V) (gca : A) (s : RAState M V A) (X : XT)
    (y : List K) : RAState M V A × List (Eff K V) × Except PyErr A :=
  let y_pred := predict s.estimator X
  let (fpr, tpr, thresholds) := roc_curve y y_pred
  let s := { s with fpr := some fpr, tpr := some tpr,
                    thresholds := some thresholds }
  let s := { s with roc_auc := some (auc fpr tpr) }
  ROCAUC.draw gca s y y_pred

/-- Python `ROCAUC.poof(**kwargs)`: `if self.ax is None: return`, then title, legend,
`plt.xlim([-0.02, 1])`, `plt.ylim([0, 1.1])`, `plt.show()`,
`return self.ax`. -/
def ROCAUC.poof {K : Type} (s : RAState M V A) :
    RAState M V A × List (Eff K V) × Except PyErr (Option A) :=
  match s.ax with
  | none => (s, [], .ok none)
  | some a =>
    (s, [Eff.title ("ROC for " ++ s.name), Eff.legend,
         Eff.xlim (-(2 / 100 : ℚ)) 1, Eff.ylim 0 (11 / 10 : ℚ),
         Eff.showPlot],
     .ok (some a))

/-! ### ClassBalance -/

/-- Instance attributes of `ClassBalance`.  `scores` keeps the raw 4-tuple
returned by `precision_recall_fscore_support`; `support` is the dict built
from it by `score`; both are unset (`none`) until then. -/
structure CBState (M K V A : Type) where
  estimator : M
  name : String
  ax : Option A
  colors : List String
  classes_ : Option (List K)
  scores : Option (PRFS V)
  support : Option (List (K × Nat))

/-- Python `ClassBalance.__init__(model, ax=None, classes=None, **kwargs)`: the base
type-check, then `self.colors = kwargs.pop('colors', PALETTES['paired'])` and
`self.classes_ = classes`. -/
def ClassBalance.init (isclassifier : M → Bool) (get_model_name : M → String)
    (pairedPalette : List String) (model : M) (ax : Option A)
    (classes : Option (List K)) (colorsKwarg : Option (List String)) :
    Except PyErr (CBState M K V A) := do
  let base ← ClassificationScoreVisualizer.init isclassifier get_model_name
    model ax
  .ok { estimator := base.estimator, name := base.name, ax := base.ax,
        colors := colorsKwarg.getD pairedPalette, classes_ := classes,
        scores := none, support := none }

/-- Python `ClassBalance.fit(X, y, **kwargs)`: identical shape to
`ClassificationReport.fit` — delegate to the estimator, set `self.classes_`
from `self.estimator.classes_` only if it is `None`, `return self`. -/
def ClassBalance.fit (fitEstimator : M → XT → List K → M)
    (estimatorClasses : M → List K) (s : CBState M K V A) (X : XT)
    (y : List K) : CBState M K V A :=
  let est := fitEstimator s.estimator X y
  let s := { s with estimator := est }
  match s.classes_ with
  | none => { s with classes_ := some (estimatorClasses est) }
  | some _ => s

/-- Python `ClassBalance.draw()`: set `self.ax = plt.gca()` if `None`, compute
`colors = self.colors[0:len(self.classes_)]` (`len(None)` raises
`TypeError`), `plt.bar(np.arange(len(self.support)), self.support.values(),
color=colors, align='center', width=0.5)` (an unset `self.support` raises
`AttributeError`), `return self.ax`. -/
def ClassBalance.draw (gca : A) (s : CBState M K V A) :
    CBState M K V A × List (Eff K V) × Except PyErr A :=
  let a := s.ax.getD gca
  let s := { s with ax := some a }
  match s.classes_ with
  | none => (s, [], .error .typeError)
  | some cs =>
    match s.support with
    | none => (s, [], .error .attributeError)
    | some sup =>
      let colors := s.colors.take cs.length
      (s, [Eff.bar (List.range sup.length) (dvalues sup) colors], .ok a)

/-- Python `ClassBalance.score(X, y)`: `y_pred = self.predict(X)`, `self.scores =
precision_recall_fscore_support(y, y_pred)`, `self.support =
dict(zip(self.classes_, self.scores[-1]))` (`zip(None, _)` raises
`TypeError`), `return self.draw()`. -/
def ClassBalance.score [DecidableEq K] (predict : M → XT → List K)
    (prfs : List K → List K → PRFS V) (gca : A) (s : CBState M K V A) (X : XT)
    (y : List K) : CBState M K V A × List (Eff K V) × Except PyErr A :=
  let y_pred := predict s.estimator X
  let raw := prfs y y_pred
  let s := { s with scores := some raw }
  match s.classes_ with
  | none => (s, [], .error .typeError)
  | some cs =>
    let s := { s with support := some (dictZip cs raw.supports) }
    ClassBalance.draw gca s

/-- Python `ClassBalance.poof()`: `if self.ax is None: return`, then
`plt.xticks(np.arange(len(self.support)), self.support.keys())` (an unset
`self.support` raises `AttributeError`), `cmax, cmin =
max(self.support.values()), min(self.support.values())` (`max` of an empty
sequence raises `ValueError`), `ceiling = cmax + cmax*0.1`,
`span = cmax - cmin` (unused), `plt.ylim(0, ceiling)`, `plt.show()`,
`return self.ax`. -/
def ClassBalance.poof (s : CBState M K V A) :
    CBState M K V A × List (Eff K V) × Except PyErr (Option A) :=
  match s.ax with
  | none => (s, [], .ok none)
  | some a =>
    match s.support with
    | none => (s, [], .error .attributeError)
    | some sup =>
      let effs := [Eff.xticksCls (V := V) (List.range sup.length) (dkeys sup)]
      match (dvalues sup).max?, (dvalues sup).min? with
      | some cmax, some cmin =>
        let ceiling : ℚ := (cmax : ℚ) + (cmax : ℚ) * (1 / 10)
        let _span := cmax - cmin
        (s, effs ++ [Eff.ylim 0 ceiling, Eff.showPlot], .ok (some a))
      | _, _ => (s, effs, .error .valueError)

/-- Pointwise three-column matrix: row `i` is the `i`-th precision, recall and
f1 value.  Used to state what `ClassificationReport.draw` builds. -/
def triples : List V → List V → List V → List (List V)
  | p :: ps, r :: rs, f :: fs => [p, r, f] :: triples ps rs fs
  | _, _, _ => []

/-- The per-class score dictionary assigned by `ClassificationReport.score`
when `self.classes_ = cs` and `precision_recall_fscore_support` returned the
arrays of `raw`. -/
def mkScores [DecidableEq K] (cs : List K) (raw : PRFS V) :
    List (String × List (K × V)) :=
  dictZip ["precision", "recall", "f1"]
    ([raw.precisions, raw.recalls, raw.f1s].map (fun arr => dictZip cs arr))

/-- A `ClassBalance` state reachable by passing an axes to the constructor
(`ClassBalance(model, ax=...)`) and never calling `score`: `ax` is set while
`scores` and `support` are still unset. -/
def cbNeverScored : CBState Unit Nat Nat Nat :=
  { estimator := (), name := "m", ax := some 5, colors := [],
    classes_ := some [0], scores := none, support := none }

/-! ### Concrete fixtures for the witnesses -/

/-- A concrete two-class predict function. -/
def predict2 : Unit → Unit → List Nat := fun _ _ => [0, 1]

/-- A concrete `precision_recall_fscore_support` result for two classes. -/
def prfs2 : List Nat → List Nat → PRFS Nat :=
  fun _ _ => ⟨[10, 11], [20, 21], [30, 31], [3, 4]⟩

/-- A concrete `roc_curve` function. -/
def rocCurve2 : List Nat → List Nat → List Nat × List Nat × List Nat :=
  fun _ _ => ([1], [2], [3])

/-- A concrete `auc` function. -/
def auc2 : List Nat → List Nat → Nat := fun _ _ => 4

/-- A fitted two-class `ClassificationReport` state, not yet scored. -/
def crTwo : CRState Unit Nat Nat Nat Unit :=
  { estimator := (), name := "m", ax := none, cmap := (),
    classes_ := some [0, 1], scores := none, matrix := none }

/-- The same state with an axes passed to the constructor. -/
def crTwoAx : CRState Unit Nat Nat Nat Unit := { crTwo with ax := some 7 }

/-- A fresh `ROCAUC` state. -/
def raTwo : RAState Unit Nat Nat :=
  { estimator := (), name := "m", ax := none, roc_color := "#2B94E9",
    diagonal_color := "#666666", fpr := none, tpr := none,
    thresholds := none, roc_auc := none }

/-- The same `ROCAUC` state with an axes passed to the constructor. -/
def raTwoAx : RAState Unit Nat Nat := { raTwo with ax := some 2 }

/-- A fitted two-class `ClassBalance` state with an axes, not yet scored. -/
def cbTwo : CBState Unit Nat Nat Nat :=
  { estimator := (), name := "m", ax := some 5, colors := ["r", "g"],
    classes_ := some [0, 1], scores := none, support := none }

/-- `cbTwo` without the axes. -/
def cbTwoNoAx : CBState Unit Nat Nat Nat := { cbTwo with ax := none }

/-- `cbTwo` after a successful `score` call. -/
def cbTwoScored : CBState Unit Nat Nat Nat :=
  (ClassBalance.score predict2 prfs2 9 cbTwo () [0, 1]).1

/-- A `ClassificationReport` with an axes passed to the constructor but no
classes list, on which neither `fit` nor `score` was called: `ax` is set while
`classes_` is still `None`. -/
def crAxNoClasses : CRState Unit Nat Nat Nat Unit :=
  { crTwoAx with classes_ := none }

/-- A `ClassBalance` whose `support` dict is empty, as results from scoring
with an empty `classes_` list. -/
def cbEmptySupport : CBState Unit Nat Nat Nat :=
  { cbTwo with support := some [] }

/-! ### Lemmas about the dict model -/

theorem keys_zip (ks : List K) (vs : List V) :
    (ks.zip vs).map Prod.fst = ks.take vs.length := by
  induction ks generalizing vs with
  | nil => simp
  | cons k t ih =>
    cases vs with
    | nil => simp
    | cons v vt => simp [ih]

theorem pyDict_append [DecidableEq K] (ps acc : List (K × V))
    (h : ((acc ++ ps).map Prod.fst).Nodup) :
    ps.foldl (fun d p => pyDictInsert d p.1 p.2) acc = acc ++ ps := by
  induction ps generalizing acc with
  | nil => simp
  | cons p t ih =>
    have hmem : ∀ q ∈ acc, ¬ q.1 = p.1 := by
      intro q hq heq
      rw [List.map_append, List.nodup_append] at h
      refine h.2.2 (List.mem_map_of_mem Prod.fst hq) ?_
      rw [heq]
      exact List.mem_map_of_mem Prod.fst (List.mem_cons_self p t)
    have hcond : acc.any (fun q => decide (q.1 = p.1)) = false := by
      rw [List.any_eq_false]
      intro q hq
      simpa using hmem q hq
    have hins : pyDictInsert acc p.1 p.2 = acc ++ [p] := by
      unfold pyDictInsert
      rw [hcond]
      simp
    calc (p :: t).foldl (fun d p => pyDictInsert d p.1 p.2) acc
        = t.foldl (fun d p => pyDictInsert d p.1 p.2) (acc ++ [p]) := by
          rw [List.foldl_cons, hins]
      _ = (acc ++ [p]) ++ t := ih (acc ++ [p]) (by simpa using h)
      _ = acc ++ p :: t := by simp

theorem pyDict_eq_self [DecidableEq K] (ps : List (K × V))
    (h : (ps.map Prod.fst).Nodup) : pyDict ps = ps := by
  simpa using pyDict_append ps [] (by simpa)

theorem dictZip_eq_zip [DecidableEq K] (ks : List K) (vs : List V)
    (h : ks.Nodup) : dictZip ks vs = ks.zip vs := by
  refine pyDict_eq_self _ ?_
  rw [keys_zip]
  exact List.Nodup.sublist (List.take_sublist _ _) h

theorem dget_zip [DecidableEq K] : ∀ (ks : List K) (vs : List V),
    ks.Nodup → ∀ (i : Nat) (hi : i < ks.length),
    dget (ks.zip vs) ks[i] = vs[i]?
  | [], _, _, _, hi => absurd hi (by simp)
  | k :: t, [], _, i, _ => by simp [dget]
  | k :: t, v :: vt, h, 0, _ => by simp [dget]
  | k :: t, v :: vt, h, n + 1, hi => by
    have hn : n < t.length := by simpa using hi
    have hk : ¬ k = t[n] := fun heq =>
      (List.nodup_cons.mp h).1 (heq ▸ t.getElem_mem hn)
    simpa [dget, hk] using dget_zip t vt (List.nodup_cons.mp h).2 n hn

theorem dget_dictZip [DecidableEq K] (ks : List K) (vs : List V)
    (h : ks.Nodup) (i : Nat) (hi : i < ks.length) :
    dget (dictZip ks vs) ks[i] = vs[i]? := by
  rw [dictZip_eq_zip ks vs h]
  exact dget_zip ks vs h i hi

/-! ### Lemmas about the matrix construction -/

theorem triples_length : ∀ (ps rs fs : List V), rs.length = ps.length →
    fs.length = ps.length → (triples ps rs fs).length = ps.length
  | [], [], _, _, _ => rfl
  | [], _ :: _, _, h, _ => by simp at h
  | _ :: _, [], _, h, _ => by simp at h
  | _ :: _, _ :: _, [], _, h => by simp at h
  | p :: ps, r :: rs, f :: fs, hr, hf => by
    simpa [triples] using triples_length ps rs fs (by simpa using hr)
      (by simpa using hf)

theorem triples_getElem? : ∀ (ps rs fs : List V) (i : Nat)
    (h1 : i < ps.length) (h2 : i < rs.length) (h3 : i < fs.length),
    (triples ps rs fs)[i]? = some [ps[i], rs[i], fs[i]]
  | p :: ps, r :: rs, f :: fs, 0, _, _, _ => by simp [triples]
  | p :: ps, r :: rs, f :: fs, n + 1, h1, h2, h3 => by
    simpa [triples] using triples_getElem? ps rs fs n (by simpa using h1)
      (by simpa using h2) (by simpa using h3)

theorem buildRows_of_forall₂ [DecidableEq K]
    (scores : List (String × List (K × V))) {l : List K}
    {rows : List (List V)}
    (h : List.Forall₂ (fun c row => rowFor scores c = .ok row) l rows) :
    buildRows scores l = (rows, none) := by
  induction h with
  | nil => rfl
  | cons hcr _ ih => simp [buildRows, hcr, ih]

theorem mkScores_eq [DecidableEq K] (cs : List K) (raw : PRFS V) :
    mkScores cs raw = [("precision", dictZip cs raw.precisions),
      ("recall", dictZip cs raw.recalls), ("f1", dictZip cs raw.f1s)] := by
  rfl

theorem rowFor_mkScores [DecidableEq K] (cs : List K) (raw : PRFS V)
    (hnd : cs.Nodup) (i : Nat) (hi : i < cs.length)
    (hp : i < raw.precisions.length) (hr : i < raw.recalls.length)
    (hf : i < raw.f1s.length) :
    rowFor (mkScores cs raw) cs[i]
      = .ok [raw.precisions[i], raw.recalls[i], raw.f1s[i]] := by
  have h1 : dget (mkScores cs raw) "precision"
      = some (dictZip cs raw.precisions) := by rw [mkScores_eq]; rfl
  have h2 : dget (mkScores cs raw) "recall"
      = some (dictZip cs raw.recalls) := by rw [mkScores_eq]; rfl
  have h3 : dget (mkScores cs raw) "f1" = some (dictZip cs raw.f1s) := by
    rw [mkScores_eq]; rfl
  unfold rowFor
  rw [h1, h2, h3]
  simp [dget_dictZip cs _ hnd i hi, List.getElem?_eq_getElem, hp, hr, hf]

theorem buildRows_mkScores [DecidableEq K] (cs : List K) (raw : PRFS V)
    (hnd : cs.Nodup) (hp : raw.precisions.length = cs.length)
    (hr : raw.recalls.length = cs.length) (hf : raw.f1s.length = cs.length) :
    buildRows (mkScores cs raw) cs
      = (triples raw.precisions raw.recalls raw.f1s, none) := by
  refine buildRows_of_forall₂ _ (List.forall₂_iff_get.mpr ⟨?_, ?_⟩)
  · rw [triples_length raw.precisions raw.recalls raw.f1s (by omega) (by omega)]
    omega
  · intro i h1 h2
    have hi : i < cs.length := h1
    have hp' : i < raw.precisions.length := by omega
    have hr' : i < raw.recalls.length := by omega
    have hf' : i < raw.f1s.length := by omega
    have := rowFor_mkScores cs raw hnd i hi hp' hr' hf'
    have hget : (triples raw.precisions raw.recalls raw.f1s).get ⟨i, h2⟩
        = [raw.precisions[i], raw.recalls[i], raw.f1s[i]] := by
      have := triples_getElem? raw.precisions raw.recalls raw.f1s i hp' hr' hf'
      rw [List.getElem?_eq_getElem h2] at this
      simpa [List.get_eq_getElem] using this
    rw [List.get_eq_getElem, List.get_eq_getElem] at *
    rw [hget]
    exact this

/-! ### Frame lemmas about `draw`, `finalize` and `poof` -/

theorem annotateLoop_fst (a : A) (s : CRState M K V A C)
    (rows : List (List V)) :
    (ClassificationReport.annotateLoop a s rows).1 = s := by
  unfold ClassificationReport.annotateLoop
  split <;> rfl

theorem annotateLoop_ok (a b : A) (s : CRState M K V A C)
    (rows : List (List V))
    (h : (ClassificationReport.annotateLoop a s rows).2.2 = .ok b) : b = a := by
  unfold ClassificationReport.annotateLoop at h
  split at h
  · simp at h
  · simp at h
    exact h.symm

theorem CR_draw_scores [DecidableEq K] (gca : A) (s : CRState M K V A C)
    (y y_pred : List K) :
    (ClassificationReport.draw gca s y y_pred).1.scores = s.scores := by
  simp only [ClassificationReport.draw]
  split
  · rfl
  · split
    · split
      · rw [annotateLoop_fst]
      · rfl
    · split
      · rfl
      · rw [annotateLoop_fst]

theorem CR_draw_matrix [DecidableEq K] (gca : A) (s : CRState M K V A C)
    (y y_pred : List K) (cs : List K) (sc : List (String × List (K × V)))
    (rows : List (List V)) (hc : s.classes_ = some cs)
    (hs : s.scores = some sc) (hb : buildRows sc cs = (rows, none)) :
    (ClassificationReport.draw gca s y y_pred).1.matrix = some rows := by
  simp only [ClassificationReport.draw, hc, hs, hb]
  rw [annotateLoop_fst]

theorem CR_draw_ok_ax [DecidableEq K] (gca : A) (s : CRState M K V A C)
    (y y_pred : List K) (a : A)
    (h : (ClassificationReport.draw gca s y y_pred).2.2 = .ok a) :
    (ClassificationReport.draw gca s y y_pred).1.ax = some a := by
  simp only [ClassificationReport.draw] at h ⊢
  split at h
  · simp at h
  · rename_i heq
    split at h
    · split at h
      · rename_i hempty
        rw [if_pos hempty]
        rw [annotateLoop_ok _ _ _ _ h, annotateLoop_fst]
      · simp at h
    · split at h
      · simp at h
      · rename_i hrows
        simp only [heq, hrows]
        rw [annotateLoop_ok _ _ _ _ h, annotateLoop_fst]

theorem CR_finalize_fst (s : CRState M K V A C) :
    (ClassificationReport.finalize s).1 = s := by
  unfold ClassificationReport.finalize
  split <;> rfl

theorem CR_poof_fst (s : CRState M K V A C) :
    (ClassificationReport.poof s).1 = s := by
  unfold ClassificationReport.poof
  split
  · rfl
  · have h := CR_finalize_fst s
    rcases heq : ClassificationReport.finalize s with ⟨s', effs, r⟩
    rw [heq] at h
    cases r <;> simpa [heq] using h

theorem RA_poof_fst {K : Type} (s : RAState M V A) :
    (ROCAUC.poof (K := K) s).1 = s := by
  unfold ROCAUC.poof
  split <;> rfl

theorem CB_poof_fst (s : CBState M K V A) :
    (ClassBalance.poof s).1 = s := by
  unfold ClassBalance.poof
  split
  · rfl
  · split
    · rfl
    · split <;> rfl

theorem CB_draw_support (gca : A) (s : CBState M K V A) :
    (ClassBalance.draw gca s).1.support = s.support := by
  simp only [ClassBalance.draw]
  split
  · rfl
  · split <;> rfl

theorem CB_draw_ok_ax (gca : A) (s : CBState M K V A) (a : A)
    (h : (ClassBalance.draw gca s).2.2 = .ok a) :
    (ClassBalance.draw gca s).1.ax = some a := by
  simp only [ClassBalance.draw] at h ⊢
  split at h
  · simp at h
  · split at h
    · simp at h
    · simp at h
      simp [h]

/-! ### The claims -/

/-- C1: for every model value, constructing a `ClassificationScoreVisualizer`
(and hence any of `ClassificationReport`, `ROCAUC`, `ClassBalance`) raises
`YellowbrickTypeError` if and only if `isclassifier(model)` is false; when the
model is a classifier, construction performs no other validation and completes
without raising that error (for every choice of the remaining arguments the
constructor returns a state). -/
theorem claim_C1 {M K V A C : Type} (isclassifier : M → Bool)
    (get_model_name : M → String) (model : M) (ax : Option A) (ddlheatmap : C)
    (classes : Option (List K)) (cmapKwarg : Option C)
    (rocColorKwarg diagonalColorKwarg : Option String)
    (pairedPalette : List String) (colorsKwarg : Option (List String)) :
    ((ClassificationScoreVisualizer.init isclassifier get_model_name model ax
        = .error .yellowbrickTypeError) ↔ isclassifier model = false)
    ∧ (isclassifier model = true →
        ClassificationScoreVisualizer.init isclassifier get_model_name model ax
          = .ok { estimator := model, name := get_model_name model, ax := ax })
    ∧ (((ClassificationReport.init isclassifier get_model_name ddlheatmap
            model ax classes cmapKwarg : Except PyErr (CRState M K V A C))
        = .error .yellowbrickTypeError) ↔ isclassifier model = false)
    ∧ (isclassifier model = true → ∃ st,
        (ClassificationReport.init isclassifier get_model_name ddlheatmap
            model ax classes cmapKwarg : Except PyErr (CRState M K V A C))
          = .ok st)
    ∧ (((ROCAUC.init isclassifier get_model_name model ax rocColorKwarg
            diagonalColorKwarg : Except PyErr (RAState M V A))
        = .error .yellowbrickTypeError) ↔ isclassifier model = false)
    ∧ (isclassifier model = true → ∃ st,
        (ROCAUC.init isclassifier get_model_name model ax rocColorKwarg
            diagonalColorKwarg : Except PyErr (RAState M V A)) = .ok st)
    ∧ (((ClassBalance.init isclassifier get_model_name pairedPalette model ax
            classes colorsKwarg : Except PyErr (CBState M K V A))
        = .error .yellowbrickTypeError) ↔ isclassifier model = false)
    ∧ (isclassifier model = true → ∃ st,
        (ClassBalance.init isclassifier get_model_name pairedPalette model ax
            classes colorsKwarg : Except PyErr (CBState M K V A)) = .ok st) := by
  cases hcl : isclassifier model <;>
    simp [ClassificationScoreVisualizer.init, ClassificationReport.init,
      ROCAUC.init, ClassBalance.init, hcl, Bind.bind, Except.bind]

/-- C2: after `ClassificationReport.score(X, y)`, the attribute `scores` is a
dictionary with exactly the keys `'precision'`, `'recall'` and `'f1'` (in
particular the support array is excluded), each mapping the `i`-th entry of
`classes_` to the `i`-th entry of the corresponding array returned by
`precision_recall_fscore_support(y, predict(X))`. -/
theorem claim_C2 {M XT K V A C : Type} [DecidableEq K]
    (predict : M → XT → List K) (prfs : List K → List K → PRFS V) (gca : A)
    (s : CRState M K V A C) (X : XT) (y : List K) (cs : List K) (raw : PRFS V)
    (hc : s.classes_ = some cs) (hnd : cs.Nodup)
    (hraw : prfs y (predict s.estimator X) = raw) :
    ∃ d, (ClassificationReport.score predict prfs gca s X y).1.scores = some d
      ∧ dkeys d = ["precision", "recall", "f1"]
      ∧ dget d "support" = none
      ∧ dget d "precision" = some (dictZip cs raw.precisions)
      ∧ dget d "recall" = some (dictZip cs raw.recalls)
      ∧ dget d "f1" = some (dictZip cs raw.f1s)
      ∧ (∀ i, ∀ hi : i < cs.length,
          dget (dictZip cs raw.precisions) cs[i] = raw.precisions[i]?
          ∧ dget (dictZip cs raw.recalls) cs[i] = raw.recalls[i]?
          ∧ dget (dictZip cs raw.f1s) cs[i] = raw.f1s[i]?) := by
  refine ⟨mkScores cs raw, ?_, ?_, ?_, ?_, ?_, ?_, ?_⟩
  · simp only [ClassificationReport.score, hc, hraw]
    rw [CR_draw_scores]
    rfl
  · rw [mkScores_eq]; rfl
  · rw [mkScores_eq]; rfl
  · rw [mkScores_eq]; rfl
  · rw [mkScores_eq]; rfl
  · rw [mkScores_eq]; rfl
  · intro i hi
    exact ⟨dget_dictZip cs raw.precisions hnd i hi,
      dget_dictZip cs raw.recalls hnd i hi,
      dget_dictZip cs raw.f1s hnd i hi⟩

/-- C3: after `ClassificationReport.draw` (as invoked by `score`), the
attribute `matrix` has one row per entry of `classes_`, in order, and the
`i`-th row is exactly the three-element list
`[scores['precision'][c], scores['recall'][c], scores['f1'][c]]` for the
`i`-th class `c` (`rowFor` is that triple of dictionary lookups). -/
theorem claim_C3 {M XT K V A C : Type} [DecidableEq K]
    (predict : M → XT → List K) (prfs : List K → List K → PRFS V) (gca : A)
    (s : CRState M K V A C) (X : XT) (y : List K) (cs : List K) (raw : PRFS V)
    (hc : s.classes_ = some cs) (hnd : cs.Nodup)
    (hraw : prfs y (predict s.estimator X) = raw)
    (hp : raw.precisions.length = cs.length)
    (hr : raw.recalls.length = cs.length)
    (hf : raw.f1s.length = cs.length) :
    ((ClassificationReport.score predict prfs gca s X y).1.matrix
        = some (triples raw.precisions raw.recalls raw.f1s))
    ∧ (triples raw.precisions raw.recalls raw.f1s).length = cs.length
    ∧ (∀ i, ∀ hi : i < cs.length, ∃ row,
        (triples raw.precisions raw.recalls raw.f1s)[i]? = some row
        ∧ rowFor (mkScores cs raw) cs[i] = .ok row) := by
  refine ⟨?_, ?_, ?_⟩
  · simp only [ClassificationReport.score, hc, hraw]
    exact CR_draw_matrix gca _ y _ cs (mkScores cs raw) _ rfl rfl
      (buildRows_mkScores cs raw hnd hp hr hf)
  · rw [triples_length raw.precisions raw.recalls raw.f1s (by omega)
      (by omega)]
    omega
  · intro i hi
    exact ⟨[raw.precisions.get ⟨i, by omega⟩, raw.recalls.get ⟨i, by omega⟩,
        raw.f1s.get ⟨i, by omega⟩],
      triples_getElem? raw.precisions raw.recalls raw.f1s i (by omega)
        (by omega) (by omega),
      rowFor_mkScores cs raw hnd i hi (by omega) (by omega) (by omega)⟩

/-- C4: the claim asserts that for every non-empty `classes_` list the
annotation loop accesses `matrix[row][column]` only in bounds.  This is false
for a three-class report: the loop iterates `column` over
`range(len(matrix) + 1) = range(4)` while every row has width 3, so the pair
`(column, row) = (3, 0)` reads `matrix[0][3]`, out of bounds, and `score`
raises `IndexError` — although `matrix` itself was already built correctly. -/
theorem claim_C4 :
    (ClassificationReport.score (fun _ _ => [0, 1, 2])
        (fun _ _ => ⟨[10, 11, 12], [20, 21, 22], [30, 31, 32], [3, 4, 5]⟩) 7
        ({ estimator := (), name := "m", ax := none, cmap := (),
           classes_ := some [0, 1, 2], scores := none, matrix := none } :
          CRState Unit Nat Nat Nat Unit) () [0, 1, 2]).2.2
      = .error .indexError
    ∧ (ClassificationReport.score (fun _ _ => [0, 1, 2])
        (fun _ _ => ⟨[10, 11, 12], [20, 21, 22], [30, 31, 32], [3, 4, 5]⟩) 7
        ({ estimator := (), name := "m", ax := none, cmap := (),
           classes_ := some [0, 1, 2], scores := none, matrix := none } :
          CRState Unit Nat Nat Nat Unit) () [0, 1, 2]).1.matrix
      = some [[10, 20, 30], [11, 21, 31], [12, 22, 32]]
    ∧ (3, 0) ∈ annotatePairs 3 3
    ∧ cellAt [[10, 20, 30], [11, 21, 31], [12, 22, 32]] 0 3 = none :=
  ⟨rfl, rfl, by decide, rfl⟩

/-- C5: after `ROCAUC.score(X, y)`, the attributes `fpr`, `tpr` and
`thresholds` are exactly the three components returned by
`roc_curve(y, predict(X))` and `roc_auc` equals `auc(fpr, tpr)` — for every
choice of the delegated functions `roc_curve` and `auc`, i.e. `score` performs
no ROC or AUC computation of its own. -/
theorem claim_C5 {M XT K V A : Type} (predict : M → XT → List K)
    (roc_curve : List K → List K → List V × List V × List V)
    (auc : List V → List V → V) (gca : A) (s : RAState M V A) (X : XT)
    (y : List K) :
    (ROCAUC.score predict roc_curve auc gca s X y).1.fpr
        = some (roc_curve y (predict s.estimator X)).1
    ∧ (ROCAUC.score predict roc_curve auc gca s X y).1.tpr
        = some (roc_curve y (predict s.estimator X)).2.1
    ∧ (ROCAUC.score predict roc_curve auc gca s X y).1.thresholds
        = some (roc_curve y (predict s.estimator X)).2.2
    ∧ (ROCAUC.score predict roc_curve auc gca s X y).1.roc_auc
        = some (auc (roc_curve y (predict s.estimator X)).1
            (roc_curve y (predict s.estimator X)).2.1) := by
  rcases hr : roc_curve y (predict s.estimator X) with ⟨fpr, tpr, th⟩
  simp [ROCAUC.score, ROCAUC.draw, hr]

/-- C6: after `ClassBalance.score(X, y)`, the attribute `support` is the
dictionary obtained by zipping `classes_` with the last (support) array
returned by `precision_recall_fscore_support(y, predict(X))`, pairing the
`i`-th class with the `i`-th support count. -/
theorem claim_C6 {M XT K V A : Type} [DecidableEq K]
    (predict : M → XT → List K) (prfs : List K → List K → PRFS V) (gca : A)
    (s : CBState M K V A) (X : XT) (y : List K) (cs : List K) (raw : PRFS V)
    (hc : s.classes_ = some cs)
    (hraw : prfs y (predict s.estimator X) = raw) :
    ((ClassBalance.score predict prfs gca s X y).1.support
        = some (dictZip cs raw.supports))
    ∧ (cs.Nodup → ∀ i, ∀ hi : i < cs.length,
        dget (dictZip cs raw.supports) cs[i] = raw.supports[i]?) := by
  constructor
  · simp only [ClassBalance.score, hc, hraw]
    rw [CB_draw_support]
  · intro hnd i hi
    exact dget_dictZip cs raw.supports hnd i hi

/-- C7: for each of the three visualizers, `poof` (and, for
`ClassificationReport`, `finalize`) leaves every instance attribute
unchanged: the returned state equals the input state. -/
theorem claim_C7 {M K V A C : Type} (s1 : CRState M K V A C)
    (s2 : RAState M V A) (s3 : CBState M K V A) :
    (ClassificationReport.poof s1).1 = s1
    ∧ (ClassificationReport.finalize s1).1 = s1
    ∧ (ROCAUC.poof (K := K) s2).1 = s2
    ∧ (ClassBalance.poof s3).1 = s3 :=
  ⟨CR_poof_fst s1, CR_finalize_fst s1, RA_poof_fst s2, CB_poof_fst s3⟩

/-- C8: for each of the three visualizers, when `score` returns a value it is
exactly the axes stored in `self.ax` (score returns its `draw` call's result,
which is `self.ax`); and `ClassificationReport.poof` invokes `finalize`
before displaying: its effect trace is the `finalize` trace followed by
`plt.show()`. -/
theorem claim_C8 {M XT K V A C : Type} [DecidableEq K]
    (predict : M → XT → List K) (prfs : List K → List K → PRFS V)
    (roc_curve : List K → List K → List V × List V × List V)
    (auc : List V → List V → V) (g1 g2 g3 : A) (s1 : CRState M K V A C)
    (s2 : RAState M V A) (s3 : CBState M K V A) (X : XT) (y : List K)
    (a b c : A) (cs : List K) :
    ((ClassificationReport.score predict prfs g1 s1 X y).2.2 = .ok a →
      (ClassificationReport.score predict prfs g1 s1 X y).1.ax = some a)
    ∧ ((ROCAUC.score predict roc_curve auc g2 s2 X y).2.2 = .ok b →
      (ROCAUC.score predict roc_curve auc g2 s2 X y).1.ax = some b)
    ∧ ((ClassBalance.score predict prfs g3 s3 X y).2.2 = .ok c →
      (ClassBalance.score predict prfs g3 s3 X y).1.ax = some c)
    ∧ (s1.ax = some a → s1.classes_ = some cs →
      (ClassificationReport.poof s1).2.1
        = (ClassificationReport.finalize s1).2.1 ++ [Eff.showPlot]) := by
  refine ⟨?_, ?_, ?_, ?_⟩
  · cases hcl : s1.classes_ with
    | none => intro h; simp [ClassificationReport.score, hcl] at h
    | some cs' =>
      intro h
      simp only [ClassificationReport.score, hcl] at h ⊢
      exact CR_draw_ok_ax _ _ _ _ _ h
  · rcases hr : roc_curve y (predict s2.estimator X) with ⟨fpr, tpr, th⟩
    intro h
    simp [ROCAUC.score, ROCAUC.draw, hr] at h ⊢
    exact h
  · cases hcl : s3.classes_ with
    | none => intro h; simp [ClassBalance.score, hcl] at h
    | some cs' =>
      intro h
      simp only [ClassBalance.score, hcl] at h ⊢
      exact CB_draw_ok_ax _ _ _ h
  · intro ha hcs
    simp [ClassificationReport.poof, ClassificationReport.finalize, ha, hcs]

/-- C9 (amended): for each of the three visualizers, if `ax` is `None`, `poof`
returns `None` and performs no finalization, axis formatting or display (its
effect trace is empty and the state is unchanged).  When `ax` is set,
`ROCAUC.poof` returns `ax`; `ClassificationReport.poof` returns `ax` provided
`classes_` is a list; `ClassBalance.poof` returns `ax` provided `support` has
been set and is non-empty — and in each remaining non-`None` case `poof`
raises instead of returning `ax`: `TypeError` for `ClassificationReport` with
`classes_ = None`, `AttributeError` for `ClassBalance` with `support` unset,
`ValueError` for `ClassBalance` with an empty `support` (together with the
return cases this covers every state of the three visualizers). -/
theorem claim_C9 {M K V A C : Type} (s1 : CRState M K V A C)
    (s2 : RAState M V A) (s3 : CBState M K V A) (a : A) :
    (s1.ax = none → ClassificationReport.poof s1 = (s1, [], .ok none))
    ∧ (s2.ax = none → ROCAUC.poof (K := K) s2 = (s2, [], .ok none))
    ∧ (s3.ax = none → ClassBalance.poof s3 = (s3, [], .ok none))
    ∧ (s2.ax = some a → (ROCAUC.poof (K := K) s2).2.2 = .ok (some a))
    ∧ (s1.ax = some a → ∀ cs, s1.classes_ = some cs →
        (ClassificationReport.poof s1).2.2 = .ok (some a))
    ∧ (s3.ax = some a → ∀ kv sup, s3.support = some (kv :: sup) →
        (ClassBalance.poof s3).2.2 = .ok (some a))
    ∧ (s1.ax = some a → s1.classes_ = none →
        (ClassificationReport.poof s1).2.2 = .error .typeError)
    ∧ (s3.ax = some a → s3.support = none →
        (ClassBalance.poof s3).2.2 = .error .attributeError)
    ∧ (s3.ax = some a → s3.support = some [] →
        (ClassBalance.poof s3).2.2 = .error .valueError) := by
  refine ⟨?_, ?_, ?_, ?_, ?_, ?_, ?_, ?_, ?_⟩
  · intro h; simp [ClassificationReport.poof, h]
  · intro h; simp [ROCAUC.poof, h]
  · intro h; simp [ClassBalance.poof, h]
  · intro h; simp [ROCAUC.poof, h]
  · intro h cs hcs
    simp [ClassificationReport.poof, ClassificationReport.finalize, h, hcs]
  · intro h kv sup hsup
    simp [ClassBalance.poof, h, hsup, dvalues, List.max?, List.min?]
  · intro h hcl
    simp [ClassificationReport.poof, ClassificationReport.finalize, h, hcl]
  · intro h hsup
    simp [ClassBalance.poof, h, hsup]
  · intro h hsup
    simp [ClassBalance.poof, h, hsup, dvalues, List.max?, List.min?]

/-- C9, counterexample to the claim as stated: on `cbNeverScored` the
attribute `ax` is non-`None`, so the claim says `poof` returns `ax`; the code
instead raises `AttributeError` reading the unset `self.support`. -/
theorem claim_C9_counterexample :
    cbNeverScored.ax = some 5
    ∧ (ClassBalance.poof cbNeverScored).2.2 = .error .attributeError
    ∧ (ClassBalance.poof cbNeverScored).2.2 ≠ .ok (some 5) :=
  ⟨rfl, rfl, fun hcon => Except.noConfusion hcon⟩

/-- C10: for `ClassificationReport.fit` and `ClassBalance.fit`: `fit` returns
the instance itself (the input state, with only the estimator refitted and
`classes_` defaulted), it assigns `classes_` from `estimator.classes_` only
when `classes_` is `None`, and when a classes list was supplied at
construction `fit` leaves `classes_` unchanged. -/
theorem claim_C10 {M XT K V A C : Type} (fitEstimator : M → XT → List K → M)
    (estimatorClasses : M → List K) (s1 : CRState M K V A C)
    (s3 : CBState M K V A) (X : XT) (y : List K) :
    (ClassificationReport.fit fitEstimator estimatorClasses s1 X y
      = { s1 with
          estimator := fitEstimator s1.estimator X y,
          classes_ := some (s1.classes_.getD
            (estimatorClasses (fitEstimator s1.estimator X y))) })
    ∧ (∀ cs, s1.classes_ = some cs →
        (ClassificationReport.fit fitEstimator estimatorClasses s1 X y).classes_
          = some cs)
    ∧ (ClassBalance.fit fitEstimator estimatorClasses s3 X y
      = { s3 with
          estimator := fitEstimator s3.estimator X y,
          classes_ := some (s3.classes_.getD
            (estimatorClasses (fitEstimator s3.estimator X y))) })
    ∧ (∀ cs, s3.classes_ = some cs →
        (ClassBalance.fit fitEstimator estimatorClasses s3 X y).classes_
          = some cs) := by
  refine ⟨?_, ?_, ?_, ?_⟩
  · cases h : s1.classes_ <;> simp [ClassificationReport.fit, h]
  · intro cs h; simp [ClassificationReport.fit, h]
  · cases h : s3.classes_ <;> simp [ClassBalance.fit, h]
  · intro cs h; simp [ClassBalance.fit, h]

/-! ### Witnesses -/

/-- Witness for C1 at a concrete model type: a non-classifier is rejected
with `YellowbrickTypeError`, a classifier is accepted by all four
constructors. -/
theorem claim_C1_witness :
    (ClassificationScoreVisualizer.init (fun b : Bool => b) (fun _ => "m")
        false (none : Option Nat) = .error .yellowbrickTypeError)
    ∧ (ClassificationScoreVisualizer.init (fun b : Bool => b) (fun _ => "m")
        true (none : Option Nat)
        = .ok { estimator := true, name := "m", ax := none })
    ∧ (∃ st, (ClassificationReport.init (fun b : Bool => b) (fun _ => "m") ()
        true none none none : Except PyErr (CRState Bool Nat Nat Nat Unit))
        = .ok st)
    ∧ (∃ st, (ROCAUC.init (fun b : Bool => b) (fun _ => "m") true none none
        none : Except PyErr (RAState Bool Nat Nat)) = .ok st)
    ∧ (∃ st, (ClassBalance.init (fun b : Bool => b) (fun _ => "m") [] true
        none none none : Except PyErr (CBState Bool Nat Nat Nat)) = .ok st) :=
  ⟨(claim_C1 (K := Nat) (V := Nat) (A := Nat) (fun b : Bool => b)
      (fun _ => "m") false none () none none none none [] none).1.mpr rfl,
   (claim_C1 (K := Nat) (V := Nat) (A := Nat) (fun b : Bool => b)
      (fun _ => "m") true none () none none none none [] none).2.1 rfl,
   (claim_C1 (K := Nat) (V := Nat) (A := Nat) (fun b : Bool => b)
      (fun _ => "m") true none () none none none none [] none).2.2.2.1 rfl,
   (claim_C1 (K := Nat) (V := Nat) (A := Nat) (fun b : Bool => b)
      (fun _ => "m") true none () none none none none [] none).2.2.2.2.2.1 rfl,
   (claim_C1 (K := Nat) (V := Nat) (A := Nat) (fun b : Bool => b)
      (fun _ => "m") true none () none none none none [] none).2.2.2.2.2.2.2
      rfl⟩

/-- Witness for C2 on a concrete two-class run. -/
theorem claim_C2_witness :
    ∃ d, (ClassificationReport.score predict2 prfs2 7 crTwo () [0, 1]).1.scores
        = some d
      ∧ dkeys d = ["precision", "recall", "f1"]
      ∧ dget d "support" = none
      ∧ dget d "precision" = some [(0, 10), (1, 11)] := by
  obtain ⟨d, h1, h2, h3, h4, -⟩ := claim_C2 predict2 prfs2 7 crTwo () [0, 1]
    [0, 1] ⟨[10, 11], [20, 21], [30, 31], [3, 4]⟩ rfl (by decide) rfl
  exact ⟨d, h1, h2, h3, h4.trans (by rfl)⟩

/-- Witness for C3 on a concrete two-class run. -/
theorem claim_C3_witness :
    (ClassificationReport.score predict2 prfs2 7 crTwo () [0, 1]).1.matrix
      = some [[10, 20, 30], [11, 21, 31]] := by
  have h := (claim_C3 predict2 prfs2 7 crTwo () [0, 1] [0, 1]
    ⟨[10, 11], [20, 21], [30, 31], [3, 4]⟩ rfl (by decide) rfl rfl rfl rfl).1
  exact h.trans (by rfl)

/-- Witness for C6 on a concrete two-class run. -/
theorem claim_C6_witness :
    (ClassBalance.score predict2 prfs2 9 cbTwo () [0, 1]).1.support
      = some [(0, 3), (1, 4)] := by
  have h := (claim_C6 predict2 prfs2 9 cbTwo () [0, 1] [0, 1]
    ⟨[10, 11], [20, 21], [30, 31], [3, 4]⟩ rfl rfl).1
  exact h.trans (by rfl)

/-- Witness for C8 on concrete runs of all three visualizers. -/
theorem claim_C8_witness :
    (ClassificationReport.score predict2 prfs2 9 crTwoAx () [0, 1]).1.ax
        = some 7
    ∧ (ROCAUC.score predict2 rocCurve2 auc2 3 raTwo () [0, 1]).1.ax = some 3
    ∧ (ClassBalance.score predict2 prfs2 9 cbTwo () [0, 1]).1.ax = some 5
    ∧ (ClassificationReport.poof crTwoAx).2.1
        = (ClassificationReport.finalize crTwoAx).2.1 ++ [Eff.showPlot] := by
  have h := claim_C8 predict2 prfs2 rocCurve2 auc2 9 3 9 crTwoAx raTwo cbTwo
    () [0, 1] 7 3 5 [0, 1]
  exact ⟨h.1 rfl, h.2.1 rfl, h.2.2.1 rfl, h.2.2.2 rfl rfl⟩

/-- Witness for the amended C9 on concrete states: with `ax` unset `poof`
returns `None` with no effects; with `ax` set it returns the axes when the
read attributes are available, and raises `TypeError` / `AttributeError` /
`ValueError` in each remaining case. -/
theorem claim_C9_witness :
    (ClassificationReport.poof crTwo = (crTwo, [], .ok none))
    ∧ (ROCAUC.poof (K := Nat) raTwo = (raTwo, [], .ok none))
    ∧ (ClassBalance.poof cbTwoNoAx = (cbTwoNoAx, [], .ok none))
    ∧ ((ROCAUC.poof (K := Nat) raTwoAx).2.2 = .ok (some 2))
    ∧ ((ClassificationReport.poof crTwoAx).2.2 = .ok (some 7))
    ∧ ((ClassBalance.poof cbTwoScored).2.2 = .ok (some 5))
    ∧ ((ClassificationReport.poof crAxNoClasses).2.2 = .error .typeError)
    ∧ ((ClassBalance.poof cbTwo).2.2 = .error .attributeError)
    ∧ ((ClassBalance.poof cbEmptySupport).2.2 = .error .valueError) :=
  ⟨(claim_C9 crTwo raTwo cbTwoNoAx 0).1 rfl,
   (claim_C9 crTwo raTwo cbTwoNoAx 0).2.1 rfl,
   (claim_C9 crTwo raTwo cbTwoNoAx 0).2.2.1 rfl,
   (claim_C9 crTwo raTwoAx cbTwoNoAx 2).2.2.2.1 rfl,
   (claim_C9 crTwoAx raTwo cbTwoNoAx 7).2.2.2.2.1 rfl [0, 1] rfl,
   (claim_C9 crTwo raTwo cbTwoScored 5).2.2.2.2.2.1 rfl (0, 3) [(1, 4)] rfl,
   (claim_C9 crAxNoClasses raTwo cbTwoNoAx 7).2.2.2.2.2.2.1 rfl rfl,
   (claim_C9 crTwo raTwo cbTwo 5).2.2.2.2.2.2.2.1 rfl rfl,
   (claim_C9 crTwo raTwo cbEmptySupport 5).2.2.2.2.2.2.2.2 rfl rfl⟩

/-- Witness for C10 on concrete states: a supplied classes list survives
`fit` unchanged for both visualizers. -/
theorem claim_C10_witness :
    (ClassificationReport.fit (fun _ _ _ => ()) (fun _ => [9]) crTwo ()
        [0]).classes_ = some [0, 1]
    ∧ (ClassBalance.fit (fun _ _ _ => ()) (fun _ => [9]) cbTwo ()
        [0]).classes_ = some [0, 1] := by
  have h := claim_C10 (fun _ _ _ => ()) (fun _ => [9]) crTwo cbTwo () [0]
  exact ⟨h.2.1 [0, 1] rfl, h.2.2.2 [0, 1] rfl⟩

end Yellowbrick
